import Mathlib

/-!
Verification of the single-node K3s/Rancher bootstrap script
(src/virtualization-automation-hub/bootstrap/bootstrap.py).

The script is shallowly embedded: every external observation the script makes
(command exit codes, captured stdout, file-existence checks, PATH lookups,
the effective uid) is a field of a `World` value, and each method of the
script becomes a pure function from `World` to an outcome together with the
list of external commands it spawns.  Real time is modelled by a logical
clock: `time.sleep(k)` advances the clock by `k`, probes take no time.
-/

namespace Bootstrap

/-- Python truthiness of `a or b` for strings: an empty string falls through. -/
def pyOr (a b : String) : String :=
  if a = "" then b else a

/-- Python `os.environ.get(x) or os.environ.get(y) or ... or dflt`:
first set, non-empty variable wins, else the default. -/
def firstTruthy (dflt : String) : List (Option String) → String
  | [] => dflt
  | some s :: rest => if s = "" then firstTruthy dflt rest else s
  | none :: rest => firstTruthy dflt rest

/-- Substring test on character lists, Python `needle in hay`. -/
def listContainsSub (needle : List Char) : List Char → Bool
  | [] => needle.isEmpty
  | c :: rest => needle.isPrefixOf (c :: rest) || listContainsSub needle rest

/-- Python `pat in s` for strings (substring containment). -/
def strContains (s pat : String) : Bool :=
  listContainsSub pat.data s.data

/-- Python `str.strip()`: drop leading and trailing whitespace. -/
def pyStrip (s : String) : String :=
  ⟨((s.data.dropWhile Char.isWhitespace).reverse.dropWhile Char.isWhitespace).reverse⟩

/-- Helper for `pySplitWs`: accumulate the current (reversed) token. -/
def pySplitWsAux (cur : List Char) : List Char → List (List Char)
  | [] => if cur.isEmpty then [] else [cur.reverse]
  | c :: rest =>
    if c.isWhitespace then
      if cur.isEmpty then pySplitWsAux [] rest
      else cur.reverse :: pySplitWsAux [] rest
    else pySplitWsAux (c :: cur) rest

/-- Python `str.split()` with no argument: split on whitespace runs,
dropping empty tokens. -/
def pySplitWs (s : List Char) : List (List Char) :=
  pySplitWsAux [] s

/-- Helper for `splitOnNl`. -/
def splitOnNlAux (cur : List Char) : List Char → List (List Char)
  | [] => [cur.reverse]
  | c :: rest =>
    if c = '\n' then cur.reverse :: splitOnNlAux [] rest
    else splitOnNlAux (c :: cur) rest

/-- Split a character list at newline characters (the script only ever
splits kubectl output whose line separator is a newline). -/
def splitOnNl (s : List Char) : List (List Char) :=
  splitOnNlAux [] s

/-- Result of a spawned external command: exit status and captured stdout
(`subprocess.CompletedProcess` as far as the script consumes it). -/
structure CmdOut where
  exitCode : Int
  stdout : String
deriving DecidableEq

/-- An external command, as its argv list (shell-string invocations are the
two-element `bash -c` form the script itself uses). -/
abbrev Cmd := List String

/-- Embeds `HostEnv._detect_primary_ip` (bootstrap.py lines 81-84): split the
stdout of `hostname -I` on whitespace, return the first token, defaulting to
`"127.0.0.1"` when there is none.  The exit status of the probe is never
consulted (the call passes `check=False`); the `or ""` in the source only
guards a `None` stdout. -/
def detect_primary_ip (r : CmdOut) : String :=
  match pySplitWs r.stdout.data with
  | [] => "127.0.0.1"
  | p :: _ => ⟨p⟩

/-- Outcome of one bounded wait: whether it converged, how many times the
probe was invoked and how many sleeps were executed. -/
structure WaitResult where
  converged : Bool
  probes : Nat
  sleeps : Nat
deriving DecidableEq

/-- The attempt-counted wait loop shape `for _ in range(fuel): if probe():
break/return; time.sleep(k)` used by the kubeconfig wait (lines 122-128) and
`_wait_nodes_ready` (lines 147-158): probe first, sleep after every failed
attempt, give up after `fuel` attempts.  `start` is the index of the next
probe invocation. -/
def waitLoop (p : Nat → Bool) (start fuel : Nat) : WaitResult :=
  match fuel with
  | 0 => ⟨false, 0, 0⟩
  | f + 1 =>
    if p start then ⟨true, 1, 0⟩
    else
      let r := waitLoop p (start + 1) f
      ⟨r.converged, r.probes + 1, r.sleeps + 1⟩

/-- The deadline-based wait loop of `RancherDeployment.wait_ready`
(lines 249-260): `while time.time() < deadline: probe; if ok return;
time.sleep(3)`, on the logical clock where only the sleeps advance time.
`i` is the index of the next probe invocation, `now` the current clock. -/
def podWaitLoop (p : Nat → Bool) (i now deadline : Nat) : WaitResult :=
  if h : now < deadline then
    if p i then ⟨true, 1, 0⟩
    else
      let r := podWaitLoop p (i + 1) (now + 3) deadline
      ⟨r.converged, r.probes + 1, r.sleeps + 1⟩
  else ⟨false, 0, 0⟩
termination_by deadline - now
decreasing_by omega

/-- `total = len(lines)` in `_wait_nodes_ready` (line 153). -/
def nodeTotal (lines : List String) : Nat :=
  lines.length

/-- `ready = sum(1 for l in lines if "Ready" in l)` (line 154): a line
matches whenever it contains the substring `"Ready"` anywhere. -/
def nodeReadyCount (lines : List String) : Nat :=
  lines.countP (fun l => strContains l "Ready")

/-- The convergence test of one node-readiness observation (line 155):
`total > 0 and ready == total`. -/
def nodesReadyObs (lines : List String) : Bool :=
  decide (0 < nodeTotal lines) && decide (nodeReadyCount lines = nodeTotal lines)

/-- `K3sCluster._wait_nodes_ready` (lines 145-159): up to 60 attempts,
2-second sleep after each failed attempt, observing the node lines of
`k3s kubectl get nodes --no-headers` each time. -/
def waitNodesReady (nodeObs : Nat → List String) : WaitResult :=
  waitLoop (fun i => nodesReadyObs (nodeObs i)) 0 60

/-- The set-based convergence test of the pod-phase fallback (line 257):
`phases and all(p == "Running" for p in phases)`. -/
def podsAllRunning (phases : List String) : Bool :=
  !phases.isEmpty && phases.all (fun p => p == "Running")

/-- `[p.strip() for p in stdout.splitlines() if p.strip()]` (line 256):
the observed pod-phase list of one probe of the fallback loop. -/
def extractPhases (stdout : String) : List String :=
  ((splitOnNl stdout.data).map (fun l => pyStrip ⟨l⟩)).filter (fun p => p ≠ "")

/-- One probe of the pod-phase fallback loop: extract the phases from the
captured stdout and test them (lines 251-257). -/
def podProbe (podObs : Nat → String) (i : Nat) : Bool :=
  podsAllRunning (extractPhases (podObs i))

/-- The three ways `RancherDeployment.wait_ready` can end: primary rollout
status succeeded, fallback pod poll succeeded, or both timed out (a warning,
line 261). -/
inductive RancherWaitOutcome where
  | rolledOut
  | podsRunning
  | warnedTimeout
deriving DecidableEq

/-- `RancherDeployment.wait_ready` (lines 238-261): try the rollout-status
wait; on its failure (caught `CalledProcessError`) fall back to the
independent pod-phase polling loop with a fresh `timeoutSec` budget; report
a timeout of the fallback as a warning. -/
def rancherWaitReady (rolloutExit : Int) (podObs : Nat → String) (timeoutSec : Nat) :
    RancherWaitOutcome :=
  if rolloutExit = 0 then .rolledOut
  else if (podWaitLoop (podProbe podObs) 0 0 timeoutSec).converged then .podsRunning
  else .warnedTimeout

/-- Outcome of a point in the script: still running normally, terminated via
`sys.exit(code)`, or an uncaught `subprocess.CalledProcessError` from a
`check=True` command (CPython then exits with status 1). -/
inductive StepOut where
  | ok
  | exited (code : Nat)
  | raised
deriving DecidableEq

/-- Every external observation one process invocation can make, fixed up
front: environment variables, the effective uid, each command's exit status
and captured stdout, each file-existence / PATH test, and the per-attempt
observations of the three polling loops. -/
structure World where
  /-- `os.geteuid()`. -/
  euid : Nat
  /-- `os.environ.get("SUDO_USER")`. -/
  sudoUser : Option String
  /-- `os.environ.get("USER")`. -/
  userVar : Option String
  /-- Result of the `hostname -I` probe (line 82). -/
  hostnameIProbe : CmdOut
  /-- Stdout of `hostname` in `ensure_hosts` (line 102). -/
  hostnameOut : String
  /-- Exit status of the `grep -Eq ... /etc/hosts` check (line 106). -/
  grepHostsExit : Int
  /-- Exit status of `systemctl is-active --quiet k3s` (line 115). -/
  k3sActiveExit : Int
  /-- `Path("/etc/rancher/k3s/k3s.yaml").exists()` at line 115. -/
  kcfgExists0 : Bool
  /-- Exit status of the K3s installer pipeline (line 119, `check=True`). -/
  k3sInstallExit : Int
  /-- The i-th `kcfg.exists()` observation of the kubeconfig wait loop
  (lines 122-125). -/
  kcfgPoll : Nat → Bool
  /-- `k3s_cfg.exists()` inside `_fix_kubeconfig_permissions` (line 135). -/
  kcfgExists1 : Bool
  /-- The i-th observed node-line list of `_wait_nodes_ready`
  (`result.stdout.strip().splitlines()`, line 152). -/
  nodeObs : Nat → List String
  /-- Directory of the script itself (`Path(__file__).resolve().parent`). -/
  scriptDir : String
  /-- `tmpl.exists()` for `templates/bootstrap.yaml` (line 182). -/
  bootstrapYamlExists : Bool
  /-- `shutil.which("helm")` at the top of `ensure_helm` (line 189). -/
  helmInPath0 : Bool
  /-- Exit status of the get-helm-3 installer (line 193, `check=True`). -/
  helmInstallExit : Int
  /-- `shutil.which("helm")` after the install attempt (line 194). -/
  helmInPath1 : Bool
  /-- Exit status of `helm status rancher -n cattle-system` (line 210). -/
  helmStatusExit : Int
  /-- Exit status of the `helm upgrade --install` command (line 236,
  `check=True`). -/
  helmUpgradeExit : Int
  /-- Exit status of `kubectl rollout status` (line 242, `check=True`,
  caught). -/
  rolloutExit : Int
  /-- Stdout of the i-th `kubectl get pods ... -o jsonpath` probe of the
  fallback loop (line 251). -/
  podObs : Nat → String

/-- `HostEnv.user` (line 68): `SUDO_USER or USER or "unknown"`. -/
def hostUser (w : World) : String :=
  firstTruthy "unknown" [w.sudoUser, w.userVar]

/-- `HostEnv.user_home` (line 69). -/
def userHome (w : World) : String :=
  if hostUser w ≠ "root" then "/home/" ++ hostUser w else "/root"

/-- `self.user_home / ".kube"`. -/
def kubeDir (w : World) : String :=
  userHome w ++ "/.kube"

/-- `HostEnv.kubeconfig_path` (lines 77-79). -/
def kubeconfigPath (w : World) : String :=
  kubeDir w ++ "/config"

/-- `HostEnv.primary_ip`. -/
def primaryIp (w : World) : String :=
  detect_primary_ip w.hostnameIProbe

def hostnameICmd : Cmd := ["hostname", "-I"]

def hostnameCmd : Cmd := ["hostname"]

def grepHostsCmd (hn : String) : Cmd :=
  ["grep", "-Eq", "^[0-9A-Fa-f:.]+\\s+" ++ hn ++ "(\\s|$)", "/etc/hosts"]

def appendHostsCmd (ip hn : String) : Cmd :=
  ["bash", "-c", "echo \x27" ++ ip ++ " " ++ hn ++ "\x27 >> /etc/hosts"]

def systemctlK3sCmd : Cmd := ["systemctl", "is-active", "--quiet", "k3s"]

def k3sInstallCmd : Cmd :=
  ["bash", "-lc",
   "curl -sfL https://get.k3s.io | INSTALL_K3S_EXEC=\x27server --disable traefik\x27 sh -"]

def nodeGetCmd : Cmd := ["k3s", "kubectl", "get", "nodes", "--no-headers"]

def kubectlApplyCmd (w : World) : Cmd :=
  ["kubectl", "apply", "-f", w.scriptDir ++ "/templates/bootstrap.yaml"]

def helmInstallScriptCmd : Cmd :=
  ["bash", "-lc",
   "curl -fsSL https://raw.githubusercontent.com/helm/helm/main/scripts/get-helm-3 | bash"]

def helmStatusCmd : Cmd := ["helm", "status", "rancher", "-n", "cattle-system"]

def repoAddCmd : Cmd :=
  ["helm", "repo", "add", "rancher-stable", "https://releases.rancher.com/server-charts/stable"]

def repoUpdateCmd : Cmd := ["helm", "repo", "update"]

/-- The `helm upgrade --install rancher ...` command (lines 221-235). -/
def helmUpgradeCmd (w : World) : Cmd :=
  ["helm", "--kubeconfig", kubeconfigPath w,
   "upgrade", "--install", "rancher", "rancher-stable/rancher",
   "--namespace", "cattle-system",
   "--create-namespace",
   "--set", "replicas=1",
   "--set", "ingress.enabled=false",
   "--set", "ingress.tls.source=secret",
   "--set", "hostname=" ++ primaryIp w ++ ".nip.io",
   "--set", "service.type=ClusterIP",
   "--set", "global.cattle.psp.enabled=false",
   "--set", "bootstrapPassword=admin123",
   "--set", "extraEnv[0].name=CATTLE_SERVER_URL",
   "--set", "extraEnv[0].value=https://" ++ primaryIp w ++ ":30444"]

def rolloutCmd : Cmd :=
  ["kubectl", "-n", "cattle-system", "rollout", "status", "deploy/rancher", "--timeout=300s"]

def podGetCmd : Cmd :=
  ["kubectl", "-n", "cattle-system", "get", "pods", "-l", "app=rancher",
   "-o", "jsonpath=\x7brange .items[*]\x7d\x7b.status.phase\x7d\x7b\"\\n\"\x7d\x7bend\x7d"]

def verifyNodesCmd : Cmd := ["kubectl", "get", "nodes"]

/-- The commands of `ensure_kube_dir` plus the copy/chown/chmod of
`_fix_kubeconfig_permissions` (lines 86-90 and 138-142), in order. -/
def fixPermCmds (w : World) : List Cmd :=
  [["mkdir", "-p", kubeDir w],
   ["chown", "-R", hostUser w ++ ":" ++ hostUser w, kubeDir w],
   ["chmod", "700", kubeDir w],
   ["cp", "/etc/rancher/k3s/k3s.yaml", kubeconfigPath w],
   ["chown", "-R", hostUser w ++ ":" ++ hostUser w, kubeDir w],
   ["chmod", "600", kubeconfigPath w]]

/-- Sequencing of two script fragments: the second runs only when the first
ended normally; its commands are appended to the trace. -/
def stepSeq (a b : StepOut × List Cmd) : StepOut × List Cmd :=
  match a with
  | (StepOut.ok, t) => (b.1, t ++ b.2)
  | (o, t) => (o, t)

/-- `HostEnv.__init__` (lines 66-71), run by the orchestrator constructor
before anything else: its only external command is the `hostname -I`
probe.  Never fails. -/
def hostEnvPhase (_w : World) : StepOut × List Cmd :=
  (.ok, [hostnameICmd])

/-- `BootstrapOrchestrator.require_sudo` (lines 296-299): `os.geteuid()`
is a system call, not an external command; a non-zero uid exits with 1. -/
def requireSudoPhase (w : World) : StepOut × List Cmd :=
  if w.euid ≠ 0 then (.exited 1, []) else (.ok, [])

/-- `K3sCluster.ensure_hosts` (lines 101-111): read the hostname, grep
/etc/hosts, append the entry when the grep fails.  All invocations are
non-fatal. -/
def ensureHostsPhase (w : World) : StepOut × List Cmd :=
  let hn := pyStrip w.hostnameOut
  let ip := pyOr (primaryIp w) "127.0.1.1"
  if w.grepHostsExit ≠ 0 then
    (.ok, [hostnameCmd, grepHostsCmd hn, appendHostsCmd ip hn])
  else
    (.ok, [hostnameCmd, grepHostsCmd hn])

/-- The part of `K3sCluster.install_or_verify` after the install branch
(lines 121-131): poll for the kubeconfig 60 times (2-second interval),
exiting 1 on timeout; then `_fix_kubeconfig_permissions` (skipped with only
a log when its own file check fails) and `_wait_nodes_ready` (never
fatal).  `t` is the trace accumulated by the install branch. -/
def installOrVerifyTail (w : World) (t : List Cmd) : StepOut × List Cmd :=
  if (waitLoop w.kcfgPoll 0 60).converged = true then
    (.ok, t ++ (if w.kcfgExists1 = true then fixPermCmds w else [])
       ++ List.replicate (waitNodesReady w.nodeObs).probes nodeGetCmd)
  else (.exited 1, t)

/-- `K3sCluster.install_or_verify` (lines 113-131): skip the installer when
k3s is active and the kubeconfig exists, else run it fatally
(`check=True`); then the kubeconfig wait, permission fix and node wait. -/
def installOrVerifyPhase (w : World) : StepOut × List Cmd :=
  if w.k3sActiveExit = 0 ∧ w.kcfgExists0 = true then
    installOrVerifyTail w [systemctlK3sCmd]
  else if w.k3sInstallExit = 0 then
    installOrVerifyTail w [systemctlK3sCmd, k3sInstallCmd]
  else (.raised, [systemctlK3sCmd, k3sInstallCmd])

/-- `K3sCluster.ensure_kubectl` (lines 161-178): only `shutil.which` lookups
and a local file write, no external command; every exception is caught, so
it never fails. -/
def ensureKubectlPhase (_w : World) : StepOut × List Cmd :=
  (.ok, [])

/-- `K3sCluster.apply_bootstrap_yaml` (lines 180-186): apply the manifest
non-fatally when present, skip silently otherwise. -/
def applyYamlPhase (w : World) : StepOut × List Cmd :=
  if w.bootstrapYamlExists = true then (.ok, [kubectlApplyCmd w]) else (.ok, [])

/-- `K3sCluster.ensure_helm` (lines 188-196): skip when helm is on PATH;
else run the installer fatally (`check=True`); exit 2 when helm is still
absent afterwards. -/
def ensureHelmPhase (w : World) : StepOut × List Cmd :=
  if w.helmInPath0 = true then (.ok, [])
  else if w.helmInstallExit ≠ 0 then (.raised, [helmInstallScriptCmd])
  else if w.helmInPath1 = false then (.exited 2, [helmInstallScriptCmd])
  else (.ok, [helmInstallScriptCmd])

/-- `RancherDeployment.install` (lines 202-236): query the release presence
with `helm status`; when it succeeds return at once, otherwise add and
refresh the chart repository (non-fatal) and run the install command
(`check=True`). -/
def rancherInstallPhase (w : World) : StepOut × List Cmd :=
  if w.helmStatusExit = 0 then (.ok, [helmStatusCmd])
  else if w.helmUpgradeExit = 0 then
    (.ok, [helmStatusCmd, repoAddCmd, repoUpdateCmd, helmUpgradeCmd w])
  else (.raised, [helmStatusCmd, repoAddCmd, repoUpdateCmd, helmUpgradeCmd w])

/-- `RancherDeployment.wait_ready` as a step of the run: the rollout-status
failure is caught, the fallback loop tolerates every probe outcome, and
both timeouts are warnings, so the phase always ends `ok`. -/
def rancherWaitPhase (w : World) : StepOut × List Cmd :=
  if w.rolloutExit = 0 then (.ok, [rolloutCmd])
  else
    (.ok, rolloutCmd ::
      List.replicate (podWaitLoop (podProbe w.podObs) 0 0 300).probes podGetCmd)

/-- `ClusterBanner.verify_cluster` plus `access`/`final` (lines 267-287):
one non-fatal `kubectl get nodes`, then pure printing. -/
def bannerPhase (_w : World) : StepOut × List Cmd :=
  (.ok, [verifyNodesCmd])

/-- `main` / `BootstrapOrchestrator.run` (lines 307-326): construct the
host environment, require root, then drive the fixed step sequence. -/
def bootstrap_run (w : World) : StepOut × List Cmd :=
  stepSeq (hostEnvPhase w)
    (stepSeq (requireSudoPhase w)
      (stepSeq (ensureHostsPhase w)
        (stepSeq (installOrVerifyPhase w)
          (stepSeq (ensureKubectlPhase w)
            (stepSeq (applyYamlPhase w)
              (stepSeq (ensureHelmPhase w)
                (stepSeq (rancherInstallPhase w)
                  (stepSeq (rancherWaitPhase w) (bannerPhase w)))))))))

/-- The status the operating system sees for one script outcome:
`sys.exit(n)` gives `n`, an uncaught exception gives 1, a normal return
gives 0. -/
def exitOfOut : StepOut → Nat
  | .ok => 0
  | .exited n => n
  | .raised => 1

/-- The process exit status of a finished run. -/
def processExit (r : StepOut × List Cmd) : Nat :=
  exitOfOut r.1

/-- Spec-side characterisation of the run outcome, following the amended
exit-code claim: exit 1 on missing privilege, on credential-file timeout,
and on failure of any of the three fatal (`check=True`) external commands
(the cluster-runtime installer, the package-manager installer, the
management-UI install command); exit 2 exactly when the package manager is
still absent after a successful install attempt; 0 otherwise. -/
def specOutcome (w : World) : StepOut :=
  if w.euid ≠ 0 then .exited 1
  else if ¬ (w.k3sActiveExit = 0 ∧ w.kcfgExists0 = true) ∧ w.k3sInstallExit ≠ 0 then .raised
  else if (waitLoop w.kcfgPoll 0 60).converged = false then .exited 1
  else if w.helmInPath0 = false ∧ w.helmInstallExit ≠ 0 then .raised
  else if w.helmInPath0 = false ∧ w.helmInPath1 = false then .exited 2
  else if w.helmStatusExit ≠ 0 ∧ w.helmUpgradeExit ≠ 0 then .raised
  else .ok

/-- A fully healthy world: root, cluster and helm already in place, the
release already present, every probe succeeding at once. -/
def wGood : World :=
  { euid := 0
    sudoUser := some "alice"
    userVar := none
    hostnameIProbe := ⟨0, "10.0.0.5 10.0.0.6\n"⟩
    hostnameOut := "host1\n"
    grepHostsExit := 0
    k3sActiveExit := 0
    kcfgExists0 := true
    k3sInstallExit := 0
    kcfgPoll := fun _ => true
    kcfgExists1 := true
    nodeObs := fun _ => ["host1   Ready    control-plane   5m   v1.30"]
    scriptDir := "/opt/bootstrap"
    bootstrapYamlExists := false
    helmInPath0 := true
    helmInstallExit := 0
    helmInPath1 := true
    helmStatusExit := 0
    helmUpgradeExit := 0
    rolloutExit := 0
    podObs := fun _ => "Running\n" }

/-- `wGood` run by an unprivileged user. -/
def wNoRoot : World :=
  { wGood with euid := 1000 }

/-- `wGood` with the management-UI release absent and its install command
failing: the `helm upgrade --install` call raises. -/
def wUpgradeFails : World :=
  { wGood with helmStatusExit := 1, helmUpgradeExit := 1 }

/-- `wGood` with the release absent and every install step succeeding. -/
def wFreshInstall : World :=
  { wGood with helmStatusExit := 1, helmUpgradeExit := 0 }

end Bootstrap

namespace Bootstrap

/-! ## Generic facts about the two wait-loop shapes -/

/-- The attempt-counted loop converges exactly when some probe within the
budget succeeds. -/
theorem waitLoop_converged_iff (p : Nat → Bool) :
    ∀ fuel start, (waitLoop p start fuel).converged = true ↔
      ∃ j, j < fuel ∧ p (start + j) = true := by
  intro fuel
  induction fuel with
  | zero => intro start; simp [waitLoop]
  | succ f ih =>
    intro start
    by_cases h : p start = true
    · rw [show waitLoop p start (f + 1) = ⟨true, 1, 0⟩ from by simp [waitLoop, h]]
      constructor
      · intro _
        exact ⟨0, Nat.succ_pos f, by simpa using h⟩
      · intro _
        rfl
    · rw [show (waitLoop p start (f + 1)).converged
            = (waitLoop p (start + 1) f).converged from by simp [waitLoop, h]]
      rw [ih (start + 1)]
      constructor
      · rintro ⟨j, hj, hp⟩
        refine ⟨j + 1, by omega, ?_⟩
        have he : start + (j + 1) = start + 1 + j := by omega
        rw [he]
        exact hp
      · rintro ⟨j, hj, hp⟩
        cases j with
        | zero =>
          rw [Nat.add_zero] at hp
          exact absurd hp h
        | succ k =>
          refine ⟨k, by omega, ?_⟩
          have he : start + 1 + k = start + (k + 1) := by omega
          rw [he]
          exact hp

/-- A probe that never succeeds is invoked exactly `fuel` times, with a
sleep after each failed attempt, and the loop reports non-convergence. -/
theorem waitLoop_never (p : Nat → Bool) (hp : ∀ j, p j = false) :
    ∀ fuel start, waitLoop p start fuel = ⟨false, fuel, fuel⟩ := by
  intro fuel
  induction fuel with
  | zero => intro start; rfl
  | succ f ih => intro start; simp [waitLoop, hp start, ih (start + 1)]

/-- A probe succeeding on its first invocation converges with a single
probe and zero sleeps. -/
theorem waitLoop_first (p : Nat → Bool) (start f : Nat) (h : p start = true) :
    waitLoop p start (f + 1) = ⟨true, 1, 0⟩ := by
  simp [waitLoop, h]

/-- On the logical clock, a never-succeeding probe of the deadline loop is
invoked exactly once per started interval, `⌈(deadline - now) / 3⌉` times,
and the loop reports non-convergence. -/
theorem podWaitLoop_never (p : Nat → Bool) (hp : ∀ j, p j = false) :
    ∀ n i now deadline, deadline - now = n →
      podWaitLoop p i now deadline = ⟨false, (n + 2) / 3, (n + 2) / 3⟩ := by
  intro n
  induction n using Nat.strong_induction_on with
  | _ n ih =>
    intro i now deadline hn
    rw [podWaitLoop]
    split
    · rename_i h
      rw [if_neg (by simp [hp i])]
      rw [ih (deadline - (now + 3)) (by omega) (i + 1) (now + 3) deadline rfl]
      have h3 : (deadline - (now + 3) + 2) / 3 + 1 = (n + 2) / 3 := by omega
      simp [h3]
    · rename_i h
      have h0 : n = 0 := by omega
      subst h0
      rfl

/-- The deadline loop converges exactly when some probe within its
interval budget succeeds. -/
theorem podWaitLoop_conv_iff (p : Nat → Bool) :
    ∀ n i now deadline, deadline - now = n →
      ((podWaitLoop p i now deadline).converged = true ↔
        ∃ j, j < (n + 2) / 3 ∧ p (i + j) = true) := by
  intro n
  induction n using Nat.strong_induction_on with
  | _ n ih =>
    intro i now deadline hn
    rw [podWaitLoop]
    split
    · rename_i h
      by_cases hpi : p i = true
      · rw [if_pos hpi]
        constructor
        · intro _
          exact ⟨0, by omega, by simpa using hpi⟩
        · intro _
          rfl
      · rw [if_neg hpi]
        show (podWaitLoop p (i + 1) (now + 3) deadline).converged = true ↔ _
        rw [ih (deadline - (now + 3)) (by omega) (i + 1) (now + 3) deadline rfl]
        constructor
        · rintro ⟨j, hj, hp2⟩
          have hjj : j + 1 < (n + 2) / 3 := by omega
          refine ⟨j + 1, hjj, ?_⟩
          have he : i + (j + 1) = i + 1 + j := by omega
          rw [he]
          exact hp2
        · rintro ⟨j, hj, hp2⟩
          cases j with
          | zero =>
            rw [Nat.add_zero] at hp2
            exact absurd hp2 hpi
          | succ k =>
            have hk : k < (deadline - (now + 3) + 2) / 3 := by omega
            refine ⟨k, hk, ?_⟩
            have he : i + 1 + k = i + (k + 1) := by omega
            rw [he]
            exact hp2
    · rename_i h
      have h0 : n = 0 := by omega
      subst h0
      simp

/-- One node observation converges exactly when it has a positive total
and every line counted matching. -/
theorem nodesReadyObs_iff (lines : List String) :
    nodesReadyObs lines = true ↔
      0 < nodeTotal lines ∧ nodeReadyCount lines = nodeTotal lines := by
  simp [nodesReadyObs]

/-- One pod observation converges exactly when it is non-empty and all
entries equal the target phase. -/
theorem podsAllRunning_iff (phases : List String) :
    podsAllRunning phases = true ↔ phases ≠ [] ∧ ∀ p ∈ phases, p = "Running" := by
  simp [podsAllRunning, List.isEmpty_iff]

/-! ## Claim C2 -/

/-- C2: the count-based node-readiness wait converges exactly when some
observation within the 60-attempt budget has `total > 0` and
`matching = total`; a probe always reporting `(0, 0)` (no node lines) never
converges under any attempt budget; and a probe whose first observation has
`total = matching > 0` (for example `(3, 3)`) converges at once, with one
probe invocation and zero sleeps. -/
theorem node_wait_count_convergence (nodeObs : Nat → List String) :
    ((waitNodesReady nodeObs).converged = true ↔
      ∃ i, i < 60 ∧ 0 < nodeTotal (nodeObs i) ∧
        nodeReadyCount (nodeObs i) = nodeTotal (nodeObs i)) ∧
    ((∀ i, nodeTotal (nodeObs i) = 0) →
      ∀ fuel, (waitLoop (fun i => nodesReadyObs (nodeObs i)) 0 fuel).converged = false) ∧
    (0 < nodeTotal (nodeObs 0) → nodeReadyCount (nodeObs 0) = nodeTotal (nodeObs 0) →
      waitNodesReady nodeObs = ⟨true, 1, 0⟩) := by
  refine ⟨?_, ?_, ?_⟩
  · rw [waitNodesReady, waitLoop_converged_iff]
    constructor
    · rintro ⟨j, hj, hp⟩
      simp only [Nat.zero_add] at hp
      exact ⟨j, hj, (nodesReadyObs_iff _).mp hp⟩
    · rintro ⟨i, hi, h1, h2⟩
      refine ⟨i, hi, ?_⟩
      simp only [Nat.zero_add]
      exact (nodesReadyObs_iff _).mpr ⟨h1, h2⟩
  · intro h0 fuel
    have hnever : ∀ i, nodesReadyObs (nodeObs i) = false := by
      intro i
      by_cases h : nodesReadyObs (nodeObs i) = true
      · rcases (nodesReadyObs_iff _).mp h with ⟨hpos, _⟩
        rw [h0 i] at hpos
        omega
      · simpa using h
    rw [waitLoop_never (fun i => nodesReadyObs (nodeObs i)) hnever fuel 0]
  · intro h1 h2
    exact waitLoop_first (fun i => nodesReadyObs (nodeObs i)) 0 59
      ((nodesReadyObs_iff _).mpr ⟨h1, h2⟩)

/-- Witness for C2 at concrete probes: a constantly empty observation
(total = 0) never converges at budget 60; three all-Ready lines on the
first attempt converge with one probe and zero sleeps. -/
theorem node_wait_count_convergence_witness :
    (waitLoop (fun i => nodesReadyObs ((fun _ => ([] : List String)) i)) 0 60).converged
        = false ∧
    waitNodesReady (fun _ => ["a Ready", "b Ready", "c Ready"]) = ⟨true, 1, 0⟩ :=
  ⟨(node_wait_count_convergence (fun _ => [])).2.1 (fun _ => rfl) 60,
   (node_wait_count_convergence (fun _ => ["a Ready", "b Ready", "c Ready"])).2.2
     (by decide) (by decide)⟩

/-! ## Claim C3 -/

/-- C3: against a never-converging probe each bounded wait loop performs
exactly its budget of probe invocations and then reports non-convergence:
the node-readiness wait and the kubeconfig wait exactly 60, the pod-phase
fallback (300-second deadline, 3-second interval, on the logical clock
where probes are instantaneous) exactly 100 — never one more, never
forever. -/
theorem wait_loops_exhaust_budget_exactly (nodeObs : Nat → List String)
    (poll : Nat → Bool) (podObs : Nat → String) :
    ((∀ i, nodesReadyObs (nodeObs i) = false) →
      waitNodesReady nodeObs = ⟨false, 60, 60⟩) ∧
    ((∀ i, poll i = false) → waitLoop poll 0 60 = ⟨false, 60, 60⟩) ∧
    ((∀ i, podProbe podObs i = false) →
      podWaitLoop (podProbe podObs) 0 0 300 = ⟨false, 100, 100⟩) := by
  refine ⟨?_, ?_, ?_⟩
  · intro h
    exact waitLoop_never (fun i => nodesReadyObs (nodeObs i)) h 60 0
  · intro h
    exact waitLoop_never poll h 60 0
  · intro h
    exact podWaitLoop_never (podProbe podObs) h 300 0 0 300 rfl

/-- Witness for C3 at concrete never-converging probes: no node lines, a
kubeconfig that never appears, empty pod output. -/
theorem wait_loops_exhaust_budget_exactly_witness :
    waitNodesReady (fun _ => []) = ⟨false, 60, 60⟩ ∧
    waitLoop (fun _ => false) 0 60 = ⟨false, 60, 60⟩ ∧
    podWaitLoop (podProbe (fun _ => "")) 0 0 300 = ⟨false, 100, 100⟩ :=
  ⟨(wait_loops_exhaust_budget_exactly (fun _ => []) (fun _ => false) (fun _ => "")).1
     (fun _ => rfl),
   (wait_loops_exhaust_budget_exactly (fun _ => []) (fun _ => false) (fun _ => "")).2.1
     (fun _ => rfl),
   (wait_loops_exhaust_budget_exactly (fun _ => []) (fun _ => false) (fun _ => "")).2.2
     (fun _ => rfl)⟩

/-! ## Claim C4 -/

/-- C4: an observation of the set-based wait converges exactly when the
observed phase list is non-empty and every entry equals `"Running"`;
`["Running", "Running"]` converges, `["Running", "Pending"]` and `[]` do
not; and the fallback loop as a whole converges exactly when some
observation within its 100-interval budget does. -/
theorem pod_phase_set_convergence (phases : List String) (obs : Nat → List String) :
    (podsAllRunning phases = true ↔ phases ≠ [] ∧ ∀ p ∈ phases, p = "Running") ∧
    (podsAllRunning ["Running", "Running"] = true ∧
      podsAllRunning ["Running", "Pending"] = false ∧
      podsAllRunning [] = false) ∧
    ((podWaitLoop (fun i => podsAllRunning (obs i)) 0 0 300).converged = true ↔
      ∃ i, i < 100 ∧ podsAllRunning (obs i) = true) := by
  refine ⟨podsAllRunning_iff phases, ⟨by decide, by decide, by decide⟩, ?_⟩
  rw [podWaitLoop_conv_iff (fun i => podsAllRunning (obs i)) 300 0 0 300 rfl]
  simp

/-- Witness for C4 (the claim theorem is universally quantified over the
observed lists; instantiate it at the concrete examples). -/
theorem pod_phase_set_convergence_witness :
    podsAllRunning ["Running", "Running"] = true ∧
    podsAllRunning ["Running", "Pending"] = false ∧
    podsAllRunning [] = false :=
  (pod_phase_set_convergence [] (fun _ => [])).2.1

/-! ## Claim C9 -/

/-- C9: a node line is counted matching whenever it contains the substring
`"Ready"` anywhere; `"NotReady"` contains that substring, so an observation
whose lines all contain `"Ready"` — even all-NotReady lines — converges,
and the node wait accepts it on the spot. -/
theorem notready_counts_as_ready (lines : List String) (nodeObs : Nat → List String) :
    strContains "host1   NotReady   control-plane   5m   v1.30" "Ready" = true ∧
    (lines ≠ [] → (∀ l ∈ lines, strContains l "Ready" = true) →
      nodesReadyObs lines = true) ∧
    (nodeObs 0 ≠ [] → (∀ l ∈ nodeObs 0, strContains l "Ready" = true) →
      (waitNodesReady nodeObs).converged = true) := by
  have key : ∀ ls : List String, ls ≠ [] → (∀ l ∈ ls, strContains l "Ready" = true) →
      nodesReadyObs ls = true := by
    intro ls hne hall
    refine (nodesReadyObs_iff ls).mpr ⟨?_, ?_⟩
    · cases ls with
      | nil => exact absurd rfl hne
      | cons a t => simp [nodeTotal]
    · exact List.countP_eq_length.mpr hall
  refine ⟨by decide, key lines, fun hne hall => ?_⟩
  have h0 : nodesReadyObs (nodeObs 0) = true := key (nodeObs 0) hne hall
  have hw : waitNodesReady nodeObs = ⟨true, 1, 0⟩ :=
    waitLoop_first (fun i => nodesReadyObs (nodeObs i)) 0 59 h0
  rw [hw]

/-- Witness for C9: a single-node observation whose only line reports
`NotReady` converges the node-readiness wait. -/
theorem notready_counts_as_ready_witness :
    nodesReadyObs ["host1   NotReady   control-plane   5m   v1.30"] = true ∧
    (waitNodesReady (fun _ => ["host1   NotReady   control-plane   5m   v1.30"])).converged
      = true :=
  ⟨(notready_counts_as_ready ["host1   NotReady   control-plane   5m   v1.30"]
      (fun _ => ["host1   NotReady   control-plane   5m   v1.30"])).2.1
      (by decide) (by decide),
   (notready_counts_as_ready ["host1   NotReady   control-plane   5m   v1.30"]
      (fun _ => ["host1   NotReady   control-plane   5m   v1.30"])).2.2
      (by decide) (by decide)⟩

/-! ## Sequencing and trace infrastructure -/

/-- Sequencing after a normal fragment appends the traces. -/
theorem stepSeq_of_ok (a b : StepOut × List Cmd) (h : a.1 = StepOut.ok) :
    stepSeq a b = (b.1, a.2 ++ b.2) := by
  rcases a with ⟨o, t⟩
  cases o <;> simp_all [stepSeq]

/-- Sequencing after an exit or an uncaught exception drops the rest. -/
theorem stepSeq_of_stop (a b : StepOut × List Cmd) (h : a.1 ≠ StepOut.ok) :
    stepSeq a b = a := by
  rcases a with ⟨o, t⟩
  cases o <;> simp_all [stepSeq]

/-- The outcome of a sequencing, as a conditional. -/
theorem stepSeq_fst (a b : StepOut × List Cmd) :
    (stepSeq a b).1 = if a.1 = StepOut.ok then b.1 else a.1 := by
  rcases a with ⟨o, t⟩
  cases o <;> simp [stepSeq]

/-- Every command of a sequenced trace belongs to one of the fragments. -/
theorem mem_stepSeq (x : Cmd) (a b : StepOut × List Cmd) (hx : x ∈ (stepSeq a b).2) :
    x ∈ a.2 ∨ x ∈ b.2 := by
  rcases a with ⟨o, t⟩
  cases o <;> simp_all [stepSeq]

/-- Every command spawned by a run belongs to one of the ten phases. -/
theorem mem_bootstrap_run (w : World) (x : Cmd) (hx : x ∈ (bootstrap_run w).2) :
    x ∈ (hostEnvPhase w).2 ∨ x ∈ (requireSudoPhase w).2 ∨ x ∈ (ensureHostsPhase w).2 ∨
    x ∈ (installOrVerifyPhase w).2 ∨ x ∈ (ensureKubectlPhase w).2 ∨
    x ∈ (applyYamlPhase w).2 ∨ x ∈ (ensureHelmPhase w).2 ∨
    x ∈ (rancherInstallPhase w).2 ∨ x ∈ (rancherWaitPhase w).2 ∨ x ∈ (bannerPhase w).2 := by
  unfold bootstrap_run at hx
  rcases mem_stepSeq x _ _ hx with h | hx; · tauto
  rcases mem_stepSeq x _ _ hx with h | hx; · tauto
  rcases mem_stepSeq x _ _ hx with h | hx; · tauto
  rcases mem_stepSeq x _ _ hx with h | hx; · tauto
  rcases mem_stepSeq x _ _ hx with h | hx; · tauto
  rcases mem_stepSeq x _ _ hx with h | hx; · tauto
  rcases mem_stepSeq x _ _ hx with h | hx; · tauto
  rcases mem_stepSeq x _ _ hx with h | hx; · tauto
  rcases mem_stepSeq x _ _ hx with h | hx; · tauto
  tauto

/-- The host-environment phase spawns only the address probe. -/
theorem mem_hostEnvPhase (w : World) (x : Cmd) (h : x ∈ (hostEnvPhase w).2) :
    x = hostnameICmd := by
  simpa [hostEnvPhase] using h

/-- The privilege check spawns no command. -/
theorem mem_requireSudoPhase (w : World) (x : Cmd) (h : x ∈ (requireSudoPhase w).2) :
    False := by
  unfold requireSudoPhase at h
  split_ifs at h <;> simp at h

/-- The hosts-file phase spawns only its three fixed command shapes. -/
theorem mem_ensureHostsPhase (w : World) (x : Cmd) (h : x ∈ (ensureHostsPhase w).2) :
    x = hostnameCmd ∨ x = grepHostsCmd (pyStrip w.hostnameOut) ∨
    x = appendHostsCmd (pyOr (primaryIp w) "127.0.1.1") (pyStrip w.hostnameOut) := by
  unfold ensureHostsPhase at h
  split_ifs at h <;> simp at h <;> tauto

/-- The install-or-verify phase spawns only its four command shapes. -/
theorem mem_installOrVerifyPhase (w : World) (x : Cmd)
    (h : x ∈ (installOrVerifyPhase w).2) :
    x = systemctlK3sCmd ∨ x = k3sInstallCmd ∨ x ∈ fixPermCmds w ∨ x = nodeGetCmd := by
  unfold installOrVerifyPhase installOrVerifyTail at h
  split_ifs at h <;> simp [List.mem_replicate] at h <;> tauto

/-- Heads of the permission-fixing commands. -/
theorem mem_fixPermCmds (w : World) (x : Cmd) (h : x ∈ fixPermCmds w) :
    x.head? = some "mkdir" ∨ x.head? = some "chown" ∨ x.head? = some "chmod" ∨
    x.head? = some "cp" := by
  simp [fixPermCmds] at h
  rcases h with h | h | h | h | h | h <;> subst h <;> simp

/-- The kubectl-shim phase spawns no command. -/
theorem mem_ensureKubectlPhase (w : World) (x : Cmd) (h : x ∈ (ensureKubectlPhase w).2) :
    False := by
  simp [ensureKubectlPhase] at h

/-- The manifest phase spawns only `kubectl apply`. -/
theorem mem_applyYamlPhase (w : World) (x : Cmd) (h : x ∈ (applyYamlPhase w).2) :
    x = kubectlApplyCmd w := by
  unfold applyYamlPhase at h
  split_ifs at h <;> simp at h
  exact h

/-- The helm-presence phase spawns only the helm installer script. -/
theorem mem_ensureHelmPhase (w : World) (x : Cmd) (h : x ∈ (ensureHelmPhase w).2) :
    x = helmInstallScriptCmd := by
  unfold ensureHelmPhase at h
  split_ifs at h <;> simp at h <;> tauto

/-- The readiness-wait phase spawns only the rollout and pod-get commands. -/
theorem mem_rancherWaitPhase (w : World) (x : Cmd) (h : x ∈ (rancherWaitPhase w).2) :
    x = rolloutCmd ∨ x = podGetCmd := by
  unfold rancherWaitPhase at h
  split_ifs at h <;> simp [List.mem_replicate] at h <;> tauto

/-- The banner phase spawns only the verification command. -/
theorem mem_bannerPhase (w : World) (x : Cmd) (h : x ∈ (bannerPhase w).2) :
    x = verifyNodesCmd := by
  simpa [bannerPhase] using h

/-- When the release-presence query succeeded, the sole `helm`-headed
command of the whole run trace is that very query. -/
theorem mem_run_head_helm (w : World) (x : Cmd) (hs : w.helmStatusExit = 0)
    (hx : x ∈ (bootstrap_run w).2) (hh : x.head? = some "helm") : x = helmStatusCmd := by
  rcases mem_bootstrap_run w x hx with h | h | h | h | h | h | h | h | h | h
  · rw [mem_hostEnvPhase w x h] at hh
    simp [hostnameICmd] at hh
  · exact (mem_requireSudoPhase w x h).elim
  · rcases mem_ensureHostsPhase w x h with h1 | h1 | h1 <;> rw [h1] at hh <;>
      simp [hostnameCmd, grepHostsCmd, appendHostsCmd] at hh
  · rcases mem_installOrVerifyPhase w x h with h1 | h1 | h1 | h1
    · rw [h1] at hh
      simp [systemctlK3sCmd] at hh
    · rw [h1] at hh
      simp [k3sInstallCmd] at hh
    · rcases mem_fixPermCmds w x h1 with h2 | h2 | h2 | h2 <;> rw [h2] at hh <;> simp at hh
    · rw [h1] at hh
      simp [nodeGetCmd] at hh
  · exact (mem_ensureKubectlPhase w x h).elim
  · rw [mem_applyYamlPhase w x h] at hh
    simp [kubectlApplyCmd] at hh
  · rw [mem_ensureHelmPhase w x h] at hh
    simp [helmInstallScriptCmd] at hh
  · unfold rancherInstallPhase at h
    rw [if_pos hs] at h
    simpa using h
  · rcases mem_rancherWaitPhase w x h with h1 | h1 <;> rw [h1] at hh <;>
      simp [rolloutCmd, podGetCmd] at hh
  · rw [mem_bannerPhase w x h] at hh
    simp [verifyNodesCmd] at hh

/-! ## Phase outcome characterisations -/

/-- Outcome of the privilege check. -/
theorem requireSudoPhase_fst (w : World) :
    (requireSudoPhase w).1 = if w.euid ≠ 0 then StepOut.exited 1 else StepOut.ok := by
  unfold requireSudoPhase
  split_ifs <;> rfl

/-- The hosts-file phase always ends normally. -/
theorem ensureHostsPhase_fst (w : World) : (ensureHostsPhase w).1 = StepOut.ok := by
  unfold ensureHostsPhase
  split_ifs <;> rfl

/-- Outcome of the install-or-verify phase. -/
theorem installOrVerifyPhase_fst (w : World) :
    (installOrVerifyPhase w).1 =
      if (w.k3sActiveExit = 0 ∧ w.kcfgExists0 = true) ∨ w.k3sInstallExit = 0 then
        (if (waitLoop w.kcfgPoll 0 60).converged = true then StepOut.ok
         else StepOut.exited 1)
      else StepOut.raised := by
  unfold installOrVerifyPhase installOrVerifyTail
  split_ifs <;> simp_all

/-- The manifest phase always ends normally. -/
theorem applyYamlPhase_fst (w : World) : (applyYamlPhase w).1 = StepOut.ok := by
  unfold applyYamlPhase
  split_ifs <;> rfl

/-- Outcome of the helm-presence phase. -/
theorem ensureHelmPhase_fst (w : World) :
    (ensureHelmPhase w).1 =
      if w.helmInPath0 = true then StepOut.ok
      else if w.helmInstallExit ≠ 0 then StepOut.raised
      else if w.helmInPath1 = false then StepOut.exited 2
      else StepOut.ok := by
  unfold ensureHelmPhase
  split_ifs <;> rfl

/-- Outcome of the management-UI install phase. -/
theorem rancherInstallPhase_fst (w : World) :
    (rancherInstallPhase w).1 =
      if w.helmStatusExit = 0 then StepOut.ok
      else if w.helmUpgradeExit = 0 then StepOut.ok
      else StepOut.raised := by
  unfold rancherInstallPhase
  split_ifs <;> rfl

/-- The readiness-wait phase always ends normally. -/
theorem rancherWaitPhase_fst (w : World) : (rancherWaitPhase w).1 = StepOut.ok := by
  unfold rancherWaitPhase
  split_ifs <;> rfl

set_option maxHeartbeats 2000000 in
/-- The run outcome equals its flat spec-side characterisation. -/
theorem bootstrap_outcome (w : World) : (bootstrap_run w).1 = specOutcome w := by
  unfold bootstrap_run
  simp only [stepSeq_fst, requireSudoPhase_fst, ensureHostsPhase_fst,
    installOrVerifyPhase_fst, applyYamlPhase_fst, ensureHelmPhase_fst,
    rancherInstallPhase_fst, rancherWaitPhase_fst]
  simp only [show (hostEnvPhase w).1 = StepOut.ok from rfl,
    show (ensureKubectlPhase w).1 = StepOut.ok from rfl,
    show (bannerPhase w).1 = StepOut.ok from rfl]
  unfold specOutcome
  split_ifs <;> simp_all

/-! ## Claim C1 -/

/-- C1: when the release-presence query (`helm status rancher -n
cattle-system`) exits 0, `RancherDeployment.install` returns after that
single query — no repository and no install command is issued — and on a
full run against such a cluster the `helm upgrade --install` command never
appears in the spawned-command trace. -/
theorem rancher_install_skipped_when_release_present (w : World)
    (h : w.helmStatusExit = 0) :
    rancherInstallPhase w = (StepOut.ok, [helmStatusCmd]) ∧
    helmUpgradeCmd w ∉ (bootstrap_run w).2 := by
  constructor
  · unfold rancherInstallPhase
    rw [if_pos h]
  · intro hmem
    have heq := mem_run_head_helm w (helmUpgradeCmd w) h hmem rfl
    simp [helmUpgradeCmd, helmStatusCmd] at heq

/-- Witness for C1 at the already-converged world `wGood`. -/
theorem rancher_install_skipped_when_release_present_witness :
    rancherInstallPhase wGood = (StepOut.ok, [helmStatusCmd]) ∧
    helmUpgradeCmd wGood ∉ (bootstrap_run wGood).2 :=
  rancher_install_skipped_when_release_present wGood (by decide)

/-! ## Claim C5 -/

/-- C5 counterexample: the claim "a non-root invocation exits 1 and
performs zero external-command invocations beyond the privilege check" is
false — the host-environment constructor runs the `hostname -I` probe
before the privilege check, so the trace is not empty. -/
theorem sudo_check_counterexample :
    ¬ (∀ w : World, w.euid ≠ 0 →
        (bootstrap_run w).1 = StepOut.exited 1 ∧ (bootstrap_run w).2 = []) := by
  intro hclaim
  have h := (hclaim wNoRoot (by decide)).2
  have he : (bootstrap_run wNoRoot).2 = [hostnameICmd] := by decide
  rw [he] at h
  simp [hostnameICmd] at h

/-- C5 amended: a non-root invocation exits with status 1 after exactly one
external command, the best-effort `hostname -I` address probe issued while
constructing the host environment (before the privilege check); no
provisioning command is ever spawned. -/
theorem nonroot_exits_one_after_single_probe (w : World) (h : w.euid ≠ 0) :
    bootstrap_run w = (StepOut.exited 1, [hostnameICmd]) := by
  unfold bootstrap_run
  rw [stepSeq_of_ok _ _ rfl]
  rw [show requireSudoPhase w = (StepOut.exited 1, []) from by
    unfold requireSudoPhase
    rw [if_pos h]]
  rw [stepSeq_of_stop _ _ (by simp)]
  simp [hostEnvPhase]

/-- Witness for C5 (amended) at the unprivileged world `wNoRoot`. -/
theorem nonroot_exits_one_after_single_probe_witness :
    bootstrap_run wNoRoot = (StepOut.exited 1, [hostnameICmd]) :=
  nonroot_exits_one_after_single_probe wNoRoot (by decide)

/-! ## Claim C6 -/

/-- C6 counterexample: the claim "the chart-repository registration and
refresh commands are executed on every run, regardless of whether the
release exists" is false — on a completed run whose release-presence query
succeeds, neither `helm repo add` nor `helm repo update` is spawned. -/
theorem repo_add_counterexample :
    ¬ (∀ w : World, (bootstrap_run w).1 = StepOut.ok →
        repoAddCmd ∈ (bootstrap_run w).2 ∧ repoUpdateCmd ∈ (bootstrap_run w).2) := by
  intro hclaim
  have h := (hclaim wGood (by decide)).1
  exact absurd h (by decide)

/-- C6 amended: the repository registration and refresh commands are
executed exactly on the release-absent path — both are spawned whenever
the install phase proceeds past the presence query, and neither appears
anywhere in a full run whose presence query succeeds. -/
theorem repo_add_gated_on_release_absence (w : World) :
    (w.helmStatusExit ≠ 0 →
      repoAddCmd ∈ (rancherInstallPhase w).2 ∧
      repoUpdateCmd ∈ (rancherInstallPhase w).2) ∧
    (w.helmStatusExit = 0 →
      repoAddCmd ∉ (bootstrap_run w).2 ∧ repoUpdateCmd ∉ (bootstrap_run w).2) := by
  constructor
  · intro h
    unfold rancherInstallPhase
    rw [if_neg h]
    split_ifs <;> simp
  · intro h
    constructor
    · intro hmem
      have heq := mem_run_head_helm w repoAddCmd h hmem rfl
      simp [repoAddCmd, helmStatusCmd] at heq
    · intro hmem
      have heq := mem_run_head_helm w repoUpdateCmd h hmem rfl
      simp [repoUpdateCmd, helmStatusCmd] at heq

/-- Witness for C6 (amended): the release-absent world `wFreshInstall`
spawns both repository commands; the release-present world is exercised
through the same theorem at `wGood` via its second conjunct. -/
theorem repo_add_gated_on_release_absence_witness :
    (repoAddCmd ∈ (rancherInstallPhase wFreshInstall).2 ∧
      repoUpdateCmd ∈ (rancherInstallPhase wFreshInstall).2) ∧
    (repoAddCmd ∉ (bootstrap_run wGood).2 ∧ repoUpdateCmd ∉ (bootstrap_run wGood).2) :=
  ⟨(repo_add_gated_on_release_absence wFreshInstall).1 (by decide),
   (repo_add_gated_on_release_absence wGood).2 (by decide)⟩

/-! ## Claim C7 -/

/-- C7 counterexample: the claim "the process exits 1 exactly when
privilege is missing or the credential file never appears" is false — a
run with root privilege and an immediately present credential file still
exits 1 when the fatal `helm upgrade --install` command fails (its uncaught
error ends the interpreter with status 1). -/
theorem exit_code_counterexample :
    ¬ (∀ w : World, processExit (bootstrap_run w) = 1 →
        w.euid ≠ 0 ∨ (waitLoop w.kcfgPoll 0 60).converged = false) := by
  intro hclaim
  rcases hclaim wUpgradeFails (by decide) with h | h
  · exact h (by decide)
  · exact absurd h (by decide)

/-- C7 amended: the run outcome is exactly characterised — exit 1 on
missing privilege, credential-file timeout, or failure of any of the three
fatal (`check=True`) commands (cluster-runtime installer, package-manager
installer, management-UI install); exit 2 exactly when the package manager
is absent, its installer succeeds, and it is still absent afterwards; exit
0 on every other completed run, warnings included. -/
theorem exit_codes_characterized (w : World) :
    (bootstrap_run w).1 = specOutcome w ∧
    (processExit (bootstrap_run w) = 2 ↔
      w.euid = 0 ∧
      ((w.k3sActiveExit = 0 ∧ w.kcfgExists0 = true) ∨ w.k3sInstallExit = 0) ∧
      (waitLoop w.kcfgPoll 0 60).converged = true ∧
      w.helmInPath0 = false ∧ w.helmInstallExit = 0 ∧ w.helmInPath1 = false) := by
  refine ⟨bootstrap_outcome w, ?_⟩
  rw [show processExit (bootstrap_run w) = exitOfOut (bootstrap_run w).1 from rfl]
  rw [bootstrap_outcome w]
  unfold specOutcome
  split_ifs <;> simp_all [exitOfOut] <;> (try tauto) <;>
    (cases hb : w.kcfgExists0 <;> simp_all <;> (try tauto))

/-- Witness for C7 (amended) at the healthy world `wGood`. -/
theorem exit_codes_characterized_witness :
    (bootstrap_run wGood).1 = specOutcome wGood ∧
    (processExit (bootstrap_run wGood) = 2 ↔
      wGood.euid = 0 ∧
      ((wGood.k3sActiveExit = 0 ∧ wGood.kcfgExists0 = true) ∨ wGood.k3sInstallExit = 0) ∧
      (waitLoop wGood.kcfgPoll 0 60).converged = true ∧
      wGood.helmInPath0 = false ∧ wGood.helmInstallExit = 0 ∧
      wGood.helmInPath1 = false) :=
  exit_codes_characterized wGood

/-! ## Claim C8 -/

/-- C8: when the primary rollout-status wait fails, `wait_ready` falls back
to the independent pod-phase polling loop (whose own convergence alone
decides the outcome); a primary success never enters the fallback; and the
phase always ends normally — a timeout of either path yields the warning
outcome and never an exit or an uncaught error. -/
theorem wait_ready_fallback_and_nonfatal (re : Int) (podObs : Nat → String) (w : World) :
    (re ≠ 0 → rancherWaitReady re podObs 300 =
      (if (podWaitLoop (podProbe podObs) 0 0 300).converged = true
       then RancherWaitOutcome.podsRunning else RancherWaitOutcome.warnedTimeout)) ∧
    rancherWaitReady 0 podObs 300 = RancherWaitOutcome.rolledOut ∧
    (rancherWaitPhase w).1 = StepOut.ok := by
  refine ⟨?_, rfl, rancherWaitPhase_fst w⟩
  intro h
  unfold rancherWaitReady
  rw [if_neg h]

/-- Witness for C8: a failing rollout with empty pod output takes the
fallback path, and the phase still ends normally. -/
theorem wait_ready_fallback_and_nonfatal_witness :
    rancherWaitReady 1 (fun _ => "") 300 =
      (if (podWaitLoop (podProbe (fun _ => "")) 0 0 300).converged = true
       then RancherWaitOutcome.podsRunning else RancherWaitOutcome.warnedTimeout) ∧
    (rancherWaitPhase wGood).1 = StepOut.ok :=
  ⟨(wait_ready_fallback_and_nonfatal 1 (fun _ => "") wGood).1 (by decide),
   (wait_ready_fallback_and_nonfatal 1 (fun _ => "") wGood).2.2⟩

/-! ## Claim C10 -/

/-- C10 counterexample: the claim "primary-IP detection returns the first
whitespace-separated token whenever the probe output is non-empty, and the
loopback address on empty or failed output" is false — the output `" "` is
a non-empty string with no token, so no first token exists (the function
returns the loopback address instead). -/
theorem primary_ip_counterexample :
    ¬ (∀ r : CmdOut,
        (r.stdout ≠ "" →
          ∃ t ts, pySplitWs r.stdout.data = t :: ts ∧ detect_primary_ip r = ⟨t⟩) ∧
        ((r.stdout = "" ∨ r.exitCode ≠ 0) → detect_primary_ip r = "127.0.0.1")) := by
  intro hclaim
  rcases (hclaim ⟨0, " "⟩).1 (by decide) with ⟨t, ts, h1, h2⟩
  have h0 : pySplitWs (CmdOut.mk 0 " ").stdout.data = [] := by decide
  rw [h0] at h1
  simp at h1

/-- C10 amended: primary-IP detection returns the first whitespace-separated
token of the probe output when at least one token exists, and the loopback
address `"127.0.0.1"` when the output holds no token (empty or
whitespace-only, in particular a failed probe with no output); the probe's
exit status itself is never consulted. -/
theorem primary_ip_first_token_or_loopback (r : CmdOut) :
    (pySplitWs r.stdout.data = [] → detect_primary_ip r = "127.0.0.1") ∧
    (∀ t ts, pySplitWs r.stdout.data = t :: ts → detect_primary_ip r = ⟨t⟩) := by
  constructor
  · intro h
    simp [detect_primary_ip, h]
  · intro t ts h
    simp [detect_primary_ip, h]

/-- Witness for C10 (amended): a two-token output yields its first token, a
failed probe with empty output yields the loopback address. -/
theorem primary_ip_first_token_or_loopback_witness :
    detect_primary_ip ⟨0, "10.0.0.5 10.0.0.6"⟩ = ⟨"10.0.0.5".data⟩ ∧
    detect_primary_ip ⟨1, ""⟩ = "127.0.0.1" :=
  ⟨(primary_ip_first_token_or_loopback ⟨0, "10.0.0.5 10.0.0.6"⟩).2
      "10.0.0.5".data ["10.0.0.6".data] (by decide),
   (primary_ip_first_token_or_loopback ⟨1, ""⟩).1 (by decide)⟩

end Bootstrap
